import Mathlib

/-!
Verification of the PredictiveMaintenance decode-and-diagnose pipeline.

The development shallowly embeds the Python sources:
* `Phase8` — "Phase 8 - Event Handling & Alerts/main.py"
  (rule evaluation, EWMA + trend drift state, Google-Sheets dispatcher
  with cooldown throttling, and the CAN frame handler).
* `Phase7` — "Phase 7 - Predictive Maintenance Logic/main.py"
  (sliding window + EWMA statistics, rule-based harness checks and
  statistical drift checks).
* `Phase6` — "Phase 6 - Data Storage & Replay/replay_decode.py"
  (manual 16-bit little-endian signal decode).

Python floats are modelled as exact rationals (ℚ); machine timestamps in
milliseconds are integers.  Fallible external calls (cantools decode, the
webhook POST) are modelled by explicit parameters describing their outcome,
so every function is total and executable.
-/

namespace Phase8

/-- `SHEET_MIN_INTERVAL_SEC = 10.0` — minimum time between pushes of the
same `(level, harness, rule_name)` key. -/
def SHEET_MIN_INTERVAL_SEC : ℚ := 10

/-- `DELTA_ALERT_V = 0.8` — V difference vs DCDC to flag a harness ALERT. -/
def DELTA_ALERT_V : ℚ := 0.8

/-- `DCDC_OK_MIN_V = 13.5`. -/
def DCDC_OK_MIN_V : ℚ := 13.5

/-- `DCDC_OK_MAX_V = 14.7`. -/
def DCDC_OK_MAX_V : ℚ := 14.7

/-- `EWMA_ALPHA = 0.2` — smoothing for the ΔA EWMA. -/
def EWMA_ALPHA : ℚ := 0.2

/-- `DRIFT_WINDOW_SEC = 20.0` — lookback window for the trend. -/
def DRIFT_WINDOW_SEC : ℚ := 20

/-- `EARLY_DRIFT_DV_MIN = 0.3` — EWMA floor for the early-drift rule. -/
def EARLY_DRIFT_DV_MIN : ℚ := 0.3

/-- `EARLY_DRIFT_TREND_MIN = 0.01` — trend floor for the early-drift rule. -/
def EARLY_DRIFT_TREND_MIN : ℚ := 0.01

/-- The `RuleEvent` dataclass.  The numeric interpolation inside the Python
f-string `message` is a display concern; the static text is kept. -/
structure RuleEvent where
  level : String
  harness : String
  rule_name : String
  message : String
  ecu_a_v : ℚ
  ecu_b_v : ℚ
  dcdc_v : ℚ
deriving DecidableEq

/-- The module-level drift state: `ewma_delta_a` (None until the first
sample) and `drift_history`, a list of `(t_sec, delta_a)` pairs. -/
structure DriftState where
  ewma_delta_a : Option ℚ
  drift_history : List (ℚ × ℚ)
deriving DecidableEq

/-- `update_drift(ts_mcu_ms, ecu_a_v, dcdc_v)`: updates EWMA and the
history for ΔA = DCDC − ECU_A, returning the new state together with
`(ewma_delta_a, trend)` exactly as the Python function returns them. -/
def update_drift (st : DriftState) (ts_mcu_ms : ℤ) (ecu_a_v dcdc_v : ℚ) :
    DriftState × Option ℚ × Option ℚ :=
  let t_sec : ℚ := (ts_mcu_ms : ℚ) / 1000
  let delta_a : ℚ := dcdc_v - ecu_a_v
  let ewma : ℚ :=
    match st.ewma_delta_a with
    | none => delta_a
    | some e => EWMA_ALPHA * delta_a + (1 - EWMA_ALPHA) * e
  let cutoff : ℚ := t_sec - DRIFT_WINDOW_SEC
  let hist : List (ℚ × ℚ) :=
    (st.drift_history ++ [(t_sec, delta_a)]).filter (fun p => decide (cutoff ≤ p.1))
  let trend : Option ℚ :=
    if 2 ≤ hist.length then
      match hist.head?, hist.getLast? with
      | some (t0, d0), some (t1, d1) =>
        if 0 < t1 - t0 then some ((d1 - d0) / (t1 - t0)) else none
      | _, _ => none
    else none
  (⟨some ewma, hist⟩, some ewma, trend)

/-- The absolute-delta rule block of `evaluate_rules` (section 1 of the
Python function): three independent `if` statements guarded by the DCDC
in-band check. -/
def threshold_events (a b d : ℚ) : List RuleEvent :=
  let dA : ℚ := d - a
  let dB : ℚ := d - b
  if DCDC_OK_MIN_V ≤ d ∧ d ≤ DCDC_OK_MAX_V then
    (if DELTA_ALERT_V < dA ∧ dB ≤ DELTA_ALERT_V then
      [⟨"ALERT", "HARNESS_A", "HARNESS_A_LOW_VS_DCDC", "ECU_A low vs DCDC", a, b, d⟩]
    else []) ++
    (if DELTA_ALERT_V < dB ∧ dA ≤ DELTA_ALERT_V then
      [⟨"ALERT", "HARNESS_B", "HARNESS_B_LOW_VS_DCDC", "ECU_B low vs DCDC", a, b, d⟩]
    else []) ++
    (if DELTA_ALERT_V < dA ∧ DELTA_ALERT_V < dB then
      [⟨"ALERT", "HARNESS_C", "HARNESS_C_BOTH_LOW_VS_DCDC", "Both ECUs low vs DCDC", a, b, d⟩]
    else [])
  else []

/-- The early-drift rule block of `evaluate_rules` (section 2 of the
Python function), applied to the values returned by `update_drift`. -/
def drift_events (a b d : ℚ) (ewma trend : Option ℚ) : List RuleEvent :=
  match ewma, trend with
  | some e, some tr =>
    if EARLY_DRIFT_DV_MIN ≤ e ∧ EARLY_DRIFT_TREND_MIN ≤ tr then
      [⟨"EARLY", "HARNESS_A", "HARNESS_A_DRIFT", "ΔA_ewma trendA ΔB_ewma", a, b, d⟩]
    else []
  | _, _ => []

/-- The `latest_voltages` store: `None` until each signal is seen. -/
structure LiveVoltages where
  ecu_a : Option ℚ
  ecu_b : Option ℚ
  dcdc : Option ℚ
deriving DecidableEq

/-- `evaluate_rules(ts_mcu_ms)`: applies the harness rules to the latest
voltages.  Returns the produced events and the drift state after the
`update_drift` call the Python function performs on its globals. -/
def evaluate_rules (lv : LiveVoltages) (st : DriftState) (ts_mcu_ms : ℤ) :
    List RuleEvent × DriftState :=
  match lv.ecu_a, lv.ecu_b, lv.dcdc with
  | some a, some b, some d =>
    let r := update_drift st ts_mcu_ms a d
    (threshold_events a b d ++ drift_events a b d r.2.1 r.2.2, r.1)
  | _, _, _ => ([], st)

/-- Throttle key `(level, harness, rule_name)`. -/
abbrev SheetKey := String × String × String

/-- `last_sheet_send` dictionary, most recent binding first. -/
abbrev ThrottleMap := List (SheetKey × ℚ)

/-- `last_sheet_send.get(key, 0.0)`. -/
def lookupLast : ThrottleMap → SheetKey → ℚ
  | [], _ => 0
  | (k, t) :: rest, key => if key = k then t else lookupLast rest key

/-- `last_sheet_send[key] = now` (new binding shadows any older one). -/
def setLast (m : ThrottleMap) (k : SheetKey) (t : ℚ) : ThrottleMap :=
  (k, t) :: m

/-- Result of the webhook POST, an external collaborator: HTTP 200, a
non-200 response, an `HTTPError`, or any other exception. -/
inductive DeliveryOutcome
  | ok200
  | non200
  | httpError
  | exn
deriving DecidableEq

/-- `send_event_to_sheets(event)`: throttles on the key, then attempts the
POST; `last_sheet_send[key]` is assigned only in the `status == 200`
branch.  Returns the new throttle map and whether the POST was attempted
(the event was forwarded to the sink). -/
def send_event_to_sheets (webhook_set : Bool) (outcome : DeliveryOutcome)
    (ev : RuleEvent) (now : ℚ) (st : ThrottleMap) : ThrottleMap × Bool :=
  if webhook_set = false then (st, false)
  else
    let key : SheetKey := (ev.level, ev.harness, ev.rule_name)
    let last : ℚ := lookupLast st key
    if now - last < SHEET_MIN_INTERVAL_SEC then (st, false)
    else
      match outcome with
      | .ok200 => (setLast st key now, true)
      | _ => (st, true)

/-- The three DBC messages of `harness_demo.dbc`. -/
inductive DbcMsg
  | ecuA
  | ecuB
  | dcdc
deriving DecidableEq

/-- Modelled from the spec: the Catalog (`id_to_msg`) built by `init_dbc`
from `harness_demo.dbc`, a data file not present under src/; the frame
identifiers 0x111/0x112/0x113 are those recorded in
`replay_decode.py`'s `MESSAGES` table. -/
def id_to_msg (can_id : ℕ) : Option DbcMsg :=
  if can_id = 0x111 then some DbcMsg.ecuA
  else if can_id = 0x112 then some DbcMsg.ecuB
  else if can_id = 0x113 then some DbcMsg.dcdc
  else none

/-- The Phase 8 module-level pipeline state touched by `can_frame_v0`. -/
structure Pipeline8State where
  frames_seen_window : ℕ
  frames_decoded_window : ℕ
  latest_voltages : LiveVoltages
  drift : DriftState
  last_sheet_send : ThrottleMap
deriving DecidableEq

/-- The module-level initial state of Phase 8. -/
def init8 : Pipeline8State := ⟨0, 0, ⟨none, none, none⟩, ⟨none, []⟩, []⟩

/-- `can_frame_v0` — the Bridge callback.  `decode` stands for the external
cantools `msg.decode`, returning `none` when it raises; `outcome` and
`now` describe the external webhook call inside `send_event_to_sheets`.
Returns the new state and the events printed/pushed for this frame. -/
def can_frame_v0 (decode : DbcMsg → List ℕ → Option ℚ)
    (webhook_set : Bool) (outcome : RuleEvent → DeliveryOutcome) (now : ℚ)
    (st : Pipeline8State)
    (version : ℤ) (ts_mcu_ms : ℤ) (can_id : ℕ) (dlc : ℕ)
    (b0 b1 b2 b3 b4 b5 b6 b7 : ℕ) (flags : ℕ) :
    Pipeline8State × List RuleEvent :=
  let st1 := { st with frames_seen_window := st.frames_seen_window + 1 }
  let data_bytes : List ℕ := [b0, b1, b2, b3, b4, b5, b6, b7]
  match id_to_msg can_id with
  | none => (st1, [])
  | some msg =>
    match decode msg data_bytes with
    | none => (st1, [])
    | some v =>
      let st2 := { st1 with frames_decoded_window := st1.frames_decoded_window + 1 }
      let lv : LiveVoltages :=
        match msg with
        | DbcMsg.ecuA => { st2.latest_voltages with ecu_a := some v }
        | DbcMsg.ecuB => { st2.latest_voltages with ecu_b := some v }
        | DbcMsg.dcdc => { st2.latest_voltages with dcdc := some v }
      let r := evaluate_rules lv st2.drift ts_mcu_ms
      let throttle : ThrottleMap := r.1.foldl
        (fun acc ev => (send_event_to_sheets webhook_set (outcome ev) ev now acc).1)
        st2.last_sheet_send
      ({ st2 with latest_voltages := lv, drift := r.2, last_sheet_send := throttle }, r.1)

end Phase8

namespace Phase7

/-- `WINDOW_SECONDS = 60.0` — how much history is kept for trend analysis. -/
def WINDOW_SECONDS : ℚ := 60

/-- `EWMA_ALPHA = 0.1` — the Phase 7 smoothing factor. -/
def EWMA_ALPHA : ℚ := 0.1

/-- `DCDC_NOMINAL_V = 14.0`. -/
def DCDC_NOMINAL_V : ℚ := 14

/-- `DCDC_TOLERANCE = 0.5` — DCDC considered "about 14V" if within ±0.5. -/
def DCDC_TOLERANCE : ℚ := 0.5

/-- `DELTA_ALERT_V = 1.0` — full harness fault threshold. -/
def DELTA_ALERT_V : ℚ := 1

/-- `DRIFT_MIN_V = 0.3` — EWMA above this means noticeable drift. -/
def DRIFT_MIN_V : ℚ := 0.3

/-- `TREND_MIN_VPS = 0.002` — minimal positive slope to call it drifting. -/
def TREND_MIN_VPS : ℚ := 0.002

/-- One entry of the Phase 7 `window` deque: `(timestamp_s, deltaA, deltaB, v_dcdc)`. -/
abbrev WinEntry := ℚ × ℚ × ℚ × ℚ

/-- The Phase 7 statistical state: the sliding `window` and the two EWMAs
(`None` until the first sample). -/
structure P7Stats where
  window : List WinEntry
  ewma_deltaA : Option ℚ
  ewma_deltaB : Option ℚ
deriving DecidableEq

/-- The Phase 7 module-level initial statistical state. -/
def initStats : P7Stats := ⟨[], none, none⟩

/-- `run_rule_based_harness_checks(deltaA, deltaB)`: the if/elif/elif chain
prints at most one `[ALERT][HARNESS_X]` line; we return its harness code. -/
def run_rule_based_harness_checks (vD deltaA deltaB : ℚ) : Option String :=
  if ¬ |vD - DCDC_NOMINAL_V| ≤ DCDC_TOLERANCE then none
  else
    if DELTA_ALERT_V ≤ deltaA ∧ ¬ DELTA_ALERT_V ≤ deltaB then some "HARNESS_A"
    else if DELTA_ALERT_V ≤ deltaB ∧ ¬ DELTA_ALERT_V ≤ deltaA then some "HARNESS_B"
    else if DELTA_ALERT_V ≤ deltaA ∧ DELTA_ALERT_V ≤ deltaB then some "HARNESS_C"
    else none

/-- `run_statistical_checks(deltaA, deltaB)`: endpoint-slope trends over the
window plus the EWMA floors, gated on DCDC stability; returns the codes of
the `[EARLY]` lines it prints. -/
def run_statistical_checks (st : P7Stats) : List String :=
  if st.window.length < 2 then []
  else
    match st.window.head?, st.window.getLast? with
    | some (t_first, dA_first, dB_first, _), some (t_last, dA_last, dB_last, vD_last) =>
      let dt : ℚ := t_last - t_first
      if dt ≤ 0 then []
      else
        let trendA : ℚ := (dA_last - dA_first) / dt
        let trendB : ℚ := (dB_last - dB_first) / dt
        let dcdc_stable : Prop := |vD_last - DCDC_NOMINAL_V| ≤ DCDC_TOLERANCE
        (match st.ewma_deltaA with
         | some eA =>
           if dcdc_stable ∧ DRIFT_MIN_V < eA ∧ TREND_MIN_VPS < trendA ∧
               |trendB| < TREND_MIN_VPS * 0.5 then ["HARNESS_A_DRIFT"] else []
         | none => []) ++
        (match st.ewma_deltaB with
         | some eB =>
           if dcdc_stable ∧ DRIFT_MIN_V < eB ∧ TREND_MIN_VPS < trendB ∧
               |trendA| < TREND_MIN_VPS * 0.5 then ["HARNESS_B_DRIFT"] else []
         | none => []) ++
        (match st.ewma_deltaA, st.ewma_deltaB with
         | some eA, some eB =>
           if dcdc_stable ∧ DRIFT_MIN_V < eA ∧ DRIFT_MIN_V < eB ∧
               TREND_MIN_VPS < trendA ∧ TREND_MIN_VPS < trendB then
             ["HARNESS_C_DRIFT"] else []
         | _, _ => [])
    | _, _ => []

/-- `update_stats_and_rules()`: appends `(t, deltaA, deltaB, V_D)` to the
window, evicts entries older than `t − WINDOW_SECONDS` from the front
(the `while … popleft` loop), updates both EWMAs (both are `None` together
in the source, being assigned in the same branch), then runs the rule-based
and statistical checks.  Returns the new state and both check results. -/
def update_stats_and_rules (st : P7Stats) (t vA vB vD : ℚ) :
    P7Stats × Option String × List String :=
  let deltaA : ℚ := vD - vA
  let deltaB : ℚ := vD - vB
  let window1 : List WinEntry :=
    (st.window ++ [(t, deltaA, deltaB, vD)]).dropWhile
      (fun e => decide (e.1 < t - WINDOW_SECONDS))
  let ewmas : ℚ × ℚ :=
    match st.ewma_deltaA, st.ewma_deltaB with
    | none, _ => (deltaA, deltaB)
    | some eA, some eB =>
      (EWMA_ALPHA * deltaA + (1 - EWMA_ALPHA) * eA,
       EWMA_ALPHA * deltaB + (1 - EWMA_ALPHA) * eB)
    | some eA, none =>
      -- unreachable from the initial state: the source assigns both
      -- EWMAs together, so one is never set without the other
      (EWMA_ALPHA * deltaA + (1 - EWMA_ALPHA) * eA, deltaB)
  let st1 : P7Stats := ⟨window1, some ewmas.1, some ewmas.2⟩
  (st1, run_rule_based_harness_checks vD deltaA deltaB, run_statistical_checks st1)

/-- Processes a sequence of fully-populated voltage readings
`(t, V_A, V_B, V_D)` through `update_stats_and_rules`, as the frame
handler does once all three voltages have been seen. -/
def run_frames (st : P7Stats) (frames : List (ℚ × ℚ × ℚ × ℚ)) : P7Stats :=
  frames.foldl (fun acc f => (update_stats_and_rules acc f.1 f.2.1 f.2.2.1 f.2.2.2).1) st

end Phase7

namespace Phase6

/-- `decode_voltage_from_bytes(b0, b1)`: little-endian 16-bit raw value,
factor 0.1. -/
def decode_voltage_from_bytes (b0 b1 : ℕ) : ℚ :=
  let raw : ℕ := (b1 <<< 8) ||| b0
  (raw : ℚ) * 0.1

end Phase6

namespace Phase8

/-- Feeds `n` identical voltage readings `(ecu_a_v = a, dcdc_v = d)` through
`update_drift`, starting from the given state (timestamp fixed at 0; the
timestamp never enters the EWMA computation). -/
def feed_constant (a d : ℚ) : ℕ → DriftState → DriftState
  | 0, st => st
  | n + 1, st => feed_constant a d n (update_drift st 0 a d).1

/-- A decoder that always fails, standing for a cantools decode exception. -/
def decFail : DbcMsg → List ℕ → Option ℚ := fun _ _ => none

/-- A delivery oracle that always reports HTTP 200. -/
def outOk : RuleEvent → DeliveryOutcome := fun _ => DeliveryOutcome.ok200

/-- A concrete event used to exercise the dispatcher. -/
def evC : RuleEvent :=
  ⟨"ALERT", "HARNESS_A", "HARNESS_A_LOW_VS_DCDC", "ECU_A low vs DCDC", 13, 14, 14⟩

/-- The throttle key of `evC`. -/
def keyC : SheetKey := ("ALERT", "HARNESS_A", "HARNESS_A_LOW_VS_DCDC")

end Phase8

example : (Phase8.update_drift ⟨none, []⟩ 1000 13 14).1.ewma_delta_a = some 1 := by
  norm_num [Phase8.update_drift]
example : (Phase8.update_drift ⟨some 1, [(0, 1/2)]⟩ 2000 9 10).2.2 = some (1/4) := by
  norm_num [Phase8.update_drift, Phase8.DRIFT_WINDOW_SEC]
example : (Phase8.evaluate_rules ⟨some 13, some 14, some 14⟩ ⟨none, []⟩ 0).1.length = 1 := by
  norm_num [Phase8.evaluate_rules, Phase8.update_drift, Phase8.threshold_events,
    Phase8.drift_events, Phase8.DCDC_OK_MIN_V, Phase8.DCDC_OK_MAX_V, Phase8.DELTA_ALERT_V,
    Phase8.EARLY_DRIFT_DV_MIN, Phase8.EARLY_DRIFT_TREND_MIN, Phase8.DRIFT_WINDOW_SEC,
    Phase8.EWMA_ALPHA]

/-! ## Helper lemmas -/

theorem lor_shiftLeft_eight (b1 b0 : ℕ) (h : b0 < 256) :
    (b1 <<< 8) ||| b0 = b1 * 256 + b0 := by
  apply Nat.eq_of_testBit_eq
  intro i
  have h256 : b1 * 256 + b0 = 2 ^ 8 * b1 + b0 := by ring
  rw [Nat.testBit_or, Nat.testBit_shiftLeft, h256,
    Nat.testBit_mul_pow_two_add _ (show b0 < 2 ^ 8 from h)]
  by_cases hi : i < 8
  · simp [hi, Nat.not_le.mpr hi]
  · have h8 : 8 ≤ i := Nat.not_lt.mp hi
    have h2i : (256 : ℕ) ≤ 2 ^ i := by
      calc (256 : ℕ) = 2 ^ 8 := by norm_num
        _ ≤ 2 ^ i := Nat.pow_le_pow_right (by norm_num) h8
    have hb0 : b0.testBit i = false :=
      Nat.testBit_lt_two_pow (lt_of_lt_of_le h h2i)
    simp [hi, h8, hb0]

/-! ## C9 -/

/-- C9: for every raw unsigned 16-bit integer, encoding it little-endian as
payload bytes `b0 = raw mod 256`, `b1 = raw div 256` and decoding with
`decode_voltage_from_bytes` yields exactly `raw * 0.1`. -/
theorem decode_roundtrip_16bit_le (raw : ℕ) (h : raw < 65536) :
    Phase6.decode_voltage_from_bytes (raw % 256) (raw / 256) = (raw : ℚ) * 0.1 := by
  unfold Phase6.decode_voltage_from_bytes
  rw [lor_shiftLeft_eight _ _ (Nat.mod_lt _ (by norm_num))]
  have hsum : raw / 256 * 256 + raw % 256 = raw := by
    rw [Nat.mul_comm]
    exact Nat.div_add_mod raw 256
  rw [hsum]

theorem decode_roundtrip_16bit_le_witness :
    142 < 65536 ∧
      Phase6.decode_voltage_from_bytes (142 % 256) (142 / 256) = (142 : ℚ) * 0.1 :=
  ⟨by norm_num, decode_roundtrip_16bit_le 142 (by norm_num)⟩

/-! ## C7 -/

theorem feed_constant_fixed (a d : ℚ) :
    ∀ (n : ℕ) (st : Phase8.DriftState), st.ewma_delta_a = some (d - a) →
      (Phase8.feed_constant a d n st).ewma_delta_a = some (d - a) := by
  intro n
  induction n with
  | zero => intro st h; exact h
  | succ m ih =>
    intro st h
    show (Phase8.feed_constant a d m (Phase8.update_drift st 0 a d).1).ewma_delta_a = _
    apply ih
    simp [Phase8.update_drift, h]
    ring

/-- C7: the EWMA is initialized to the first sample's value exactly, a
sample equal to the current EWMA leaves it unchanged (fixed point of the
blend), and after N > 0 identical samples the EWMA equals that value; the
same initialization and fixed-point identities hold for the Phase 7
engine. -/
theorem ewma_init_and_fixed_point :
    (∀ (st : Phase8.DriftState) (ts : ℤ) (a d : ℚ), st.ewma_delta_a = none →
      (Phase8.update_drift st ts a d).1.ewma_delta_a = some (d - a))
    ∧ (∀ (st : Phase8.DriftState) (ts : ℤ) (a d v : ℚ),
        st.ewma_delta_a = some v → d - a = v →
        (Phase8.update_drift st ts a d).1.ewma_delta_a = some v)
    ∧ (∀ (a d : ℚ) (n : ℕ), 0 < n →
        (Phase8.feed_constant a d n ⟨none, []⟩).ewma_delta_a = some (d - a))
    ∧ (∀ (st : Phase7.P7Stats) (t vA vB vD : ℚ), st.ewma_deltaA = none →
        (Phase7.update_stats_and_rules st t vA vB vD).1.ewma_deltaA = some (vD - vA))
    ∧ (∀ (st : Phase7.P7Stats) (t vA vB vD v : ℚ),
        st.ewma_deltaA = some v → vD - vA = v →
        (Phase7.update_stats_and_rules st t vA vB vD).1.ewma_deltaA = some v) := by
  refine ⟨?_, ?_, ?_, ?_, ?_⟩
  · intro st ts a d h
    simp [Phase8.update_drift, h]
  · intro st ts a d v h hv
    simp [Phase8.update_drift, h, hv]
    ring
  · intro a d n hn
    match n, hn with
    | m + 1, _ =>
      show (Phase8.feed_constant a d m (Phase8.update_drift ⟨none, []⟩ 0 a d).1).ewma_delta_a = _
      apply feed_constant_fixed
      simp [Phase8.update_drift]
  · intro st t vA vB vD h
    simp [Phase7.update_stats_and_rules, h]
  · intro st t vA vB vD v h hv
    cases hB : st.ewma_deltaB with
    | none => simp [Phase7.update_stats_and_rules, h, hB, hv]; ring
    | some eB => simp [Phase7.update_stats_and_rules, h, hB, hv]; ring

theorem ewma_init_and_fixed_point_witness :
    ((⟨none, []⟩ : Phase8.DriftState).ewma_delta_a = none)
    ∧ (Phase8.update_drift ⟨none, []⟩ 0 13 14).1.ewma_delta_a = some (14 - 13) :=
  ⟨rfl, ewma_init_and_fixed_point.1 ⟨none, []⟩ 0 13 14 rfl⟩

/-! ## C10 -/

/-- C10: a frame whose identifier is unknown to the catalog, or whose
payload makes the external decode fail, produces no event and leaves every
piece of pipeline state except the frames-seen counter exactly unchanged. -/
theorem frame_error_containment
    (decode : Phase8.DbcMsg → List ℕ → Option ℚ) (w : Bool)
    (oc : Phase8.RuleEvent → Phase8.DeliveryOutcome) (now : ℚ)
    (st : Phase8.Pipeline8State) (version ts : ℤ) (can_id dlc : ℕ)
    (b0 b1 b2 b3 b4 b5 b6 b7 flags : ℕ) :
    (Phase8.id_to_msg can_id = none →
      Phase8.can_frame_v0 decode w oc now st version ts can_id dlc
          b0 b1 b2 b3 b4 b5 b6 b7 flags =
        ({ st with frames_seen_window := st.frames_seen_window + 1 }, []))
    ∧ (∀ m, Phase8.id_to_msg can_id = some m →
        decode m [b0, b1, b2, b3, b4, b5, b6, b7] = none →
        Phase8.can_frame_v0 decode w oc now st version ts can_id dlc
            b0 b1 b2 b3 b4 b5 b6 b7 flags =
          ({ st with frames_seen_window := st.frames_seen_window + 1 }, [])) := by
  constructor
  · intro h
    simp [Phase8.can_frame_v0, h]
  · intro m hm hd
    simp [Phase8.can_frame_v0, hm, hd]

theorem frame_error_containment_witness :
    Phase8.can_frame_v0 Phase8.decFail true Phase8.outOk 0 Phase8.init8
        0 0 0x222 8 0 0 0 0 0 0 0 0 0 =
      ({ Phase8.init8 with frames_seen_window := 1 }, []) :=
  (frame_error_containment Phase8.decFail true Phase8.outOk 0 Phase8.init8
    0 0 0x222 8 0 0 0 0 0 0 0 0 0).1 rfl

/-! ## C1 -/

/-- C1 counterexample: from an empty throttle map, submitting `evC` at time
100 with a failed delivery leaves its key's last-sent time different from
what a successful delivery produces — the failure does not mark the key as
sent, contradicting the claim that the throttle state is updated
regardless of the delivery outcome. -/
theorem throttle_update_on_failure_counterexample :
    Phase8.lookupLast
        (Phase8.send_event_to_sheets true Phase8.DeliveryOutcome.non200
          Phase8.evC 100 []).1 Phase8.keyC ≠
      Phase8.lookupLast
        (Phase8.send_event_to_sheets true Phase8.DeliveryOutcome.ok200
          Phase8.evC 100 []).1 Phase8.keyC := by
  norm_num [Phase8.send_event_to_sheets, Phase8.lookupLast, Phase8.setLast,
    Phase8.evC, Phase8.keyC, Phase8.SHEET_MIN_INTERVAL_SEC]

/-- C1 (amended): the throttle key is marked as sent only when the delivery
returns HTTP 200; a delivery failure (non-2xx, HTTPError, other exception)
leaves the throttle state unchanged, so a failed delivery does not count
against the cooldown.  On a successful un-throttled delivery the key is
set to the submission time. -/
theorem throttle_updated_only_on_success :
    (∀ (w : Bool) (oc : Phase8.DeliveryOutcome) (ev : Phase8.RuleEvent)
        (now : ℚ) (st : Phase8.ThrottleMap), oc ≠ Phase8.DeliveryOutcome.ok200 →
        (Phase8.send_event_to_sheets w oc ev now st).1 = st)
    ∧ (∀ (ev : Phase8.RuleEvent) (now : ℚ) (st : Phase8.ThrottleMap),
        ¬ now - Phase8.lookupLast st (ev.level, ev.harness, ev.rule_name) <
            Phase8.SHEET_MIN_INTERVAL_SEC →
        (Phase8.send_event_to_sheets true Phase8.DeliveryOutcome.ok200 ev now st).1 =
          Phase8.setLast st (ev.level, ev.harness, ev.rule_name) now) := by
  constructor
  · intro w oc ev now st hoc
    cases w with
    | false => simp [Phase8.send_event_to_sheets]
    | true =>
      cases oc with
      | ok200 => exact absurd rfl hoc
      | non200 => simp only [Phase8.send_event_to_sheets]; split_ifs <;> rfl
      | httpError => simp only [Phase8.send_event_to_sheets]; split_ifs <;> rfl
      | exn => simp only [Phase8.send_event_to_sheets]; split_ifs <;> rfl
  · intro ev now st h
    simp [Phase8.send_event_to_sheets, h]

theorem throttle_updated_only_on_success_witness :
    (Phase8.DeliveryOutcome.exn ≠ Phase8.DeliveryOutcome.ok200)
    ∧ (Phase8.send_event_to_sheets true Phase8.DeliveryOutcome.exn
        Phase8.evC 100 []).1 = [] :=
  ⟨fun h => Phase8.DeliveryOutcome.noConfusion h,
   throttle_updated_only_on_success.1 true Phase8.DeliveryOutcome.exn
     Phase8.evC 100 [] (fun h => Phase8.DeliveryOutcome.noConfusion h)⟩

/-! ## C8 -/

/-- C8 counterexample: two events with the same throttle key submitted 5
seconds apart (< cooldown), the first being forwarded but its delivery
failing: both are forwarded, contradicting the claim that only the first
is forwarded whenever the first was. -/
theorem cooldown_counterexample :
    (Phase8.send_event_to_sheets true Phase8.DeliveryOutcome.non200
        Phase8.evC 100 []).2 = true
    ∧ (Phase8.send_event_to_sheets true Phase8.DeliveryOutcome.non200 Phase8.evC 105
        (Phase8.send_event_to_sheets true Phase8.DeliveryOutcome.non200
          Phase8.evC 100 []).1).2 = true
    ∧ (105 : ℚ) - 100 < Phase8.SHEET_MIN_INTERVAL_SEC := by
  norm_num [Phase8.send_event_to_sheets, Phase8.lookupLast, Phase8.setLast,
    Phase8.evC, Phase8.SHEET_MIN_INTERVAL_SEC]

/-- C8 (amended): if the first event is forwarded and its delivery succeeds
with HTTP 200, then a second event with the same throttle key submitted
less than `cooldown_seconds` later is dropped; the successful forward
updates the last-forwarded time for that key and for no other key. -/
theorem cooldown_after_successful_forward
    (st : Phase8.ThrottleMap) (w : Bool) (oc2 : Phase8.DeliveryOutcome)
    (ev1 ev2 : Phase8.RuleEvent) (t1 t2 : ℚ)
    (hkey : (ev2.level, ev2.harness, ev2.rule_name) =
      (ev1.level, ev1.harness, ev1.rule_name))
    (hfwd : (Phase8.send_event_to_sheets w Phase8.DeliveryOutcome.ok200
      ev1 t1 st).2 = true)
    (hlt : t2 - t1 < Phase8.SHEET_MIN_INTERVAL_SEC) :
    ((Phase8.send_event_to_sheets w oc2 ev2 t2
        (Phase8.send_event_to_sheets w Phase8.DeliveryOutcome.ok200 ev1 t1 st).1).2
      = false)
    ∧ ∀ k, k ≠ (ev1.level, ev1.harness, ev1.rule_name) →
        Phase8.lookupLast
            (Phase8.send_event_to_sheets w Phase8.DeliveryOutcome.ok200
              ev1 t1 st).1 k =
          Phase8.lookupLast st k := by
  cases w with
  | false => simp [Phase8.send_event_to_sheets] at hfwd
  | true =>
    by_cases hthr : t1 - Phase8.lookupLast st (ev1.level, ev1.harness, ev1.rule_name) <
        Phase8.SHEET_MIN_INTERVAL_SEC
    · simp [Phase8.send_event_to_sheets, hthr] at hfwd
    · have hst1 : Phase8.send_event_to_sheets true Phase8.DeliveryOutcome.ok200 ev1 t1 st =
          (Phase8.setLast st (ev1.level, ev1.harness, ev1.rule_name) t1, true) := by
        simp [Phase8.send_event_to_sheets, hthr]
      rw [hst1]
      constructor
      · simp [Phase8.send_event_to_sheets, Phase8.setLast, Phase8.lookupLast, hkey, hlt]
      · intro k hk
        simp [Phase8.setLast, Phase8.lookupLast, hk]

theorem cooldown_after_successful_forward_witness :
    ((Phase8.evC.level, Phase8.evC.harness, Phase8.evC.rule_name) =
      (Phase8.evC.level, Phase8.evC.harness, Phase8.evC.rule_name))
    ∧ (Phase8.send_event_to_sheets true Phase8.DeliveryOutcome.ok200 Phase8.evC 105
        (Phase8.send_event_to_sheets true Phase8.DeliveryOutcome.ok200
          Phase8.evC 100 []).1).2 = false :=
  ⟨rfl,
   (cooldown_after_successful_forward [] true Phase8.DeliveryOutcome.ok200
      Phase8.evC Phase8.evC 100 105 rfl
      (by norm_num [Phase8.send_event_to_sheets, Phase8.lookupLast,
        Phase8.evC, Phase8.SHEET_MIN_INTERVAL_SEC])
      (by norm_num [Phase8.SHEET_MIN_INTERVAL_SEC])).1⟩

/-! ## C2 -/

theorem threshold_events_length_le_one (a b d : ℚ) :
    (Phase8.threshold_events a b d).length ≤ 1 := by
  simp only [Phase8.threshold_events]
  split_ifs <;> simp_all <;> linarith

theorem filter_alert_threshold (a b d : ℚ) :
    (Phase8.threshold_events a b d).filter (fun ev => decide (ev.level = "ALERT")) =
      Phase8.threshold_events a b d := by
  simp only [Phase8.threshold_events]
  split_ifs <;> simp [List.filter]

theorem filter_early_threshold (a b d : ℚ) :
    (Phase8.threshold_events a b d).filter (fun ev => decide (ev.level = "EARLY")) = [] := by
  simp only [Phase8.threshold_events]
  split_ifs <;> simp [List.filter]

theorem filter_alert_drift (a b d : ℚ) (e t : Option ℚ) :
    (Phase8.drift_events a b d e t).filter (fun ev => decide (ev.level = "ALERT")) = [] := by
  cases e with
  | none => rfl
  | some x =>
    cases t with
    | none => rfl
    | some y =>
      simp only [Phase8.drift_events]
      split_ifs <;> simp [List.filter]

/-- C2: in a single rule-engine evaluation at most one of the three
threshold classifications (HARNESS_A, HARNESS_B, HARNESS_C) fires: the
ALERT-level portion of the produced event list never holds more than one
event. -/
theorem threshold_classifications_mutually_exclusive
    (lv : Phase8.LiveVoltages) (st : Phase8.DriftState) (ts : ℤ) :
    ((Phase8.evaluate_rules lv st ts).1.filter
      (fun ev => decide (ev.level = "ALERT"))).length ≤ 1 := by
  rcases lv with ⟨a?, b?, d?⟩
  cases a? with
  | none => simp [Phase8.evaluate_rules]
  | some a =>
    cases b? with
    | none => simp [Phase8.evaluate_rules]
    | some b =>
      cases d? with
      | none => simp [Phase8.evaluate_rules]
      | some d =>
        simp only [Phase8.evaluate_rules]
        rw [List.filter_append, filter_alert_threshold, filter_alert_drift,
          List.append_nil]
        exact threshold_events_length_le_one a b d

/-! ## C4 -/

/-- C4 counterexample: evaluating the rules on fully-populated live values
from the fresh drift state changes the drift state (the EWMA is
initialized and the sample is appended to the window), contradicting the
claim that evaluation leaves the statistical state unchanged. -/
theorem evaluate_rules_mutates_state_counterexample :
    (Phase8.evaluate_rules ⟨some 14, some 14, some 14⟩ ⟨none, []⟩ 0).2 ≠
      (⟨none, []⟩ : Phase8.DriftState) := by
  intro hEq
  have h1 : (Phase8.evaluate_rules ⟨some 14, some 14, some 14⟩
      ⟨none, []⟩ 0).2.ewma_delta_a = some 0 := by
    norm_num [Phase8.evaluate_rules, Phase8.update_drift]
  rw [hEq] at h1
  exact Option.noConfusion h1

/-- C4 (amended): `evaluate_rules` returns its event sequence but also
performs the statistical update itself: when all three live values are
present its resulting drift state is exactly the state produced by
`update_drift` on the new sample, and when any live value is absent the
state is returned unchanged. -/
theorem evaluate_rules_state_effect
    (lv : Phase8.LiveVoltages) (st : Phase8.DriftState) (ts : ℤ) :
    ((lv.ecu_a = none ∨ lv.ecu_b = none ∨ lv.dcdc = none) →
      (Phase8.evaluate_rules lv st ts).2 = st)
    ∧ (∀ a b d, lv = ⟨some a, some b, some d⟩ →
        (Phase8.evaluate_rules lv st ts).2 = (Phase8.update_drift st ts a d).1) := by
  rcases lv with ⟨a?, b?, d?⟩
  constructor
  · intro h
    rcases h with h | h | h <;> simp only at h <;> subst h
    · simp [Phase8.evaluate_rules]
    · cases a? <;> simp [Phase8.evaluate_rules]
    · cases a? <;> cases b? <;> simp [Phase8.evaluate_rules]
  · intro a b d h
    cases h
    simp [Phase8.evaluate_rules]

theorem evaluate_rules_state_effect_witness :
    ((⟨none, some 1, some 2⟩ : Phase8.LiveVoltages).ecu_a = none ∨
      (⟨none, some 1, some 2⟩ : Phase8.LiveVoltages).ecu_b = none ∨
      (⟨none, some 1, some 2⟩ : Phase8.LiveVoltages).dcdc = none)
    ∧ (Phase8.evaluate_rules ⟨none, some 1, some 2⟩ ⟨none, []⟩ 5).2 =
        (⟨none, []⟩ : Phase8.DriftState) :=
  ⟨Or.inl rfl,
   (evaluate_rules_state_effect ⟨none, some 1, some 2⟩ ⟨none, []⟩ 5).1 (Or.inl rfl)⟩

/-! ## C3 -/

/-- C3 counterexample: with the reference (DCDC) at 10 V — far outside the
acceptable band [13.5, 14.7] — the Phase 8 rule evaluation still produces
an EARLY drift event, because its drift rule performs no reference band
check. -/
theorem drift_fires_out_of_band_counterexample :
    ((Phase8.evaluate_rules ⟨some 9, some 10, some 10⟩ ⟨some 1, [(0, 1/2)]⟩ 2000).1.filter
        (fun ev => decide (ev.level = "EARLY"))).length = 1
    ∧ ¬ (Phase8.DCDC_OK_MIN_V ≤ (10 : ℚ) ∧ (10 : ℚ) ≤ Phase8.DCDC_OK_MAX_V) := by
  constructor
  · norm_num [Phase8.evaluate_rules, Phase8.update_drift, Phase8.threshold_events,
      Phase8.drift_events, Phase8.DCDC_OK_MIN_V, Phase8.DCDC_OK_MAX_V,
      Phase8.DELTA_ALERT_V, Phase8.EARLY_DRIFT_DV_MIN, Phase8.EARLY_DRIFT_TREND_MIN,
      Phase8.DRIFT_WINDOW_SEC, Phase8.EWMA_ALPHA, List.filter]
  · norm_num [Phase8.DCDC_OK_MIN_V, Phase8.DCDC_OK_MAX_V]

/-- C3 (amended): only the Phase 7 statistical checks gate drift
classifications on the reference being in band: whenever the newest window
sample's reference value lies outside the acceptable band, Phase 7
produces no drift code; the Phase 8 drift rule carries no such gate. -/
theorem drift_gated_on_reference_phase7 (st : Phase7.P7Stats) (t dA dB vD : ℚ)
    (hlast : st.window.getLast? = some (t, dA, dB, vD))
    (hband : ¬ |vD - Phase7.DCDC_NOMINAL_V| ≤ Phase7.DCDC_TOLERANCE) :
    Phase7.run_statistical_checks st = [] := by
  unfold Phase7.run_statistical_checks
  rw [hlast]
  by_cases hlen : st.window.length < 2
  · simp [hlen]
  · rcases hh : st.window.head? with _ | ⟨t0, d0A, d0B, v0⟩
    · simp [hlen]
    · by_cases hdt : t - t0 ≤ 0
      · simp [hlen, hdt]
      · cases hA : st.ewma_deltaA <;> cases hB : st.ewma_deltaB <;>
          simp [hlen, hdt, hband, hA, hB]

theorem drift_gated_on_reference_phase7_witness :
    Phase7.run_statistical_checks ⟨[(0, 1, 1, 10), (1, 1, 1, 10)], some 1, some 1⟩ = [] :=
  drift_gated_on_reference_phase7 ⟨[(0, 1, 1, 10), (1, 1, 1, 10)], some 1, some 1⟩
    1 1 1 10 rfl
    (by norm_num [Phase7.DCDC_NOMINAL_V, Phase7.DCDC_TOLERANCE])

/-! ## C5 -/

theorem update_drift_trend_eq (st : Phase8.DriftState) (ts : ℤ) (a d : ℚ) :
    (Phase8.update_drift st ts a d).2.2 =
      (if 2 ≤ (Phase8.update_drift st ts a d).1.drift_history.length then
        match (Phase8.update_drift st ts a d).1.drift_history.head?,
            (Phase8.update_drift st ts a d).1.drift_history.getLast? with
        | some (t0, d0), some (t1, d1) =>
          if 0 < t1 - t0 then some ((d1 - d0) / (t1 - t0)) else none
        | _, _ => none
      else none) := rfl

theorem drift_events_none_trend (a b d : ℚ) (e : Option ℚ) :
    Phase8.drift_events a b d e none = [] := by
  cases e <;> rfl

/-- C5: the trend is the endpoint slope of the sliding window and nothing
else — with at least 2 samples and positive elapsed time it equals
(newest − oldest) value over elapsed time; with fewer than 2 samples or
non-positive elapsed time it is reported as absent (never zero) and the
drift rule cannot fire (in Phase 7, fewer than 2 samples likewise produce
no drift code). -/
theorem trend_is_endpoint_slope :
    (∀ (st : Phase8.DriftState) (ts : ℤ) (a d t0 d0 t1 d1 : ℚ),
        (Phase8.update_drift st ts a d).1.drift_history.head? = some (t0, d0) →
        (Phase8.update_drift st ts a d).1.drift_history.getLast? = some (t1, d1) →
        2 ≤ (Phase8.update_drift st ts a d).1.drift_history.length →
        t0 < t1 →
        (Phase8.update_drift st ts a d).2.2 = some ((d1 - d0) / (t1 - t0)))
    ∧ (∀ (st : Phase8.DriftState) (ts : ℤ) (a d : ℚ),
        (Phase8.update_drift st ts a d).1.drift_history.length < 2 →
        (Phase8.update_drift st ts a d).2.2 = none)
    ∧ (∀ (st : Phase8.DriftState) (ts : ℤ) (a d t0 d0 t1 d1 : ℚ),
        (Phase8.update_drift st ts a d).1.drift_history.head? = some (t0, d0) →
        (Phase8.update_drift st ts a d).1.drift_history.getLast? = some (t1, d1) →
        t1 ≤ t0 →
        (Phase8.update_drift st ts a d).2.2 = none)
    ∧ (∀ (st : Phase8.DriftState) (ts : ℤ) (a b d : ℚ),
        (Phase8.update_drift st ts a d).2.2 = none →
        (Phase8.evaluate_rules ⟨some a, some b, some d⟩ st ts).1.filter
          (fun ev => decide (ev.level = "EARLY")) = [])
    ∧ (∀ st7 : Phase7.P7Stats, st7.window.length < 2 →
        Phase7.run_statistical_checks st7 = []) := by
  refine ⟨?_, ?_, ?_, ?_, ?_⟩
  · intro st ts a d t0 d0 t1 d1 hh hl hlen hlt
    rw [update_drift_trend_eq, if_pos hlen, hh, hl]
    show (if 0 < t1 - t0 then some ((d1 - d0) / (t1 - t0)) else none) = _
    rw [if_pos (sub_pos.mpr hlt)]
  · intro st ts a d hlen
    rw [update_drift_trend_eq, if_neg (not_le.mpr hlen)]
  · intro st ts a d t0 d0 t1 d1 hh hl hle
    rw [update_drift_trend_eq]
    by_cases hlen : 2 ≤ (Phase8.update_drift st ts a d).1.drift_history.length
    · rw [if_pos hlen, hh, hl]
      show (if 0 < t1 - t0 then some ((d1 - d0) / (t1 - t0)) else none) = _
      rw [if_neg (not_lt.mpr (sub_nonpos.mpr hle))]
    · rw [if_neg hlen]
  · intro st ts a b d htr
    simp only [Phase8.evaluate_rules]
    rw [List.filter_append, filter_early_threshold, htr, drift_events_none_trend]
    rfl
  · intro st7 h
    unfold Phase7.run_statistical_checks
    rw [if_pos h]

theorem trend_is_endpoint_slope_witness :
    ((Phase8.update_drift ⟨none, []⟩ 0 13 14).1.drift_history.length < 2)
    ∧ (Phase8.update_drift ⟨none, []⟩ 0 13 14).2.2 = none :=
  ⟨by norm_num [Phase8.update_drift, Phase8.DRIFT_WINDOW_SEC, List.filter],
   trend_is_endpoint_slope.2.1 ⟨none, []⟩ 0 13 14
     (by norm_num [Phase8.update_drift, Phase8.DRIFT_WINDOW_SEC, List.filter])⟩

/-! ## C6 -/

theorem mem_dropWhile_lt_ge (c : ℚ) :
    ∀ l : List Phase7.WinEntry,
      l.Pairwise (fun x y : Phase7.WinEntry => x.1 ≤ y.1) →
      ∀ s ∈ l.dropWhile (fun e => decide (e.1 < c)), c ≤ s.1 := by
  intro l
  induction l with
  | nil => intro _ s hs; simp at hs
  | cons x xs ih =>
    intro hp s hs
    rcases hp with _ | ⟨hx_all, hp2⟩
    by_cases hx : x.1 < c
    · rw [List.dropWhile_cons_of_pos (by simpa using hx)] at hs
      exact ih hp2 s hs
    · rw [List.dropWhile_cons_of_neg (by simpa using hx)] at hs
      rcases List.mem_cons.mp hs with rfl | hmem
      · exact le_of_not_lt hx
      · exact le_trans (le_of_not_lt hx) (hx_all s hmem)

theorem update_stats_window_inv (w : List Phase7.WinEntry) (ewA ewB : Option ℚ)
    (t vA vB vD : ℚ)
    (hsort : w.Pairwise (fun x y : Phase7.WinEntry => x.1 ≤ y.1))
    (hbound : ∀ s ∈ w, s.1 ≤ t) :
    ((Phase7.update_stats_and_rules ⟨w, ewA, ewB⟩ t vA vB vD).1.window.Pairwise
        (fun x y : Phase7.WinEntry => x.1 ≤ y.1))
    ∧ (∀ s ∈ (Phase7.update_stats_and_rules ⟨w, ewA, ewB⟩ t vA vB vD).1.window,
        s.1 ≤ t)
    ∧ (∀ s ∈ (Phase7.update_stats_and_rules ⟨w, ewA, ewB⟩ t vA vB vD).1.window,
        t - Phase7.WINDOW_SECONDS ≤ s.1) := by
  have hw : (Phase7.update_stats_and_rules ⟨w, ewA, ewB⟩ t vA vB vD).1.window =
      (w ++ [(t, vD - vA, vD - vB, vD)]).dropWhile
        (fun e => decide (e.1 < t - Phase7.WINDOW_SECONDS)) := rfl
  have happ : (w ++ [(t, vD - vA, vD - vB, vD)]).Pairwise
      (fun x y : Phase7.WinEntry => x.1 ≤ y.1) := by
    rw [List.pairwise_append]
    refine ⟨hsort, List.pairwise_singleton _ _, ?_⟩
    intro a ha b hb
    rcases List.mem_singleton.mp hb with rfl
    exact hbound a ha
  refine ⟨?_, ?_, ?_⟩
  · rw [hw]
    exact List.Pairwise.sublist (List.dropWhile_sublist _) happ
  · rw [hw]
    intro s hs
    rcases List.mem_append.mp ((List.dropWhile_sublist _).subset hs) with h | h
    · exact hbound s h
    · rcases List.mem_singleton.mp h with rfl
      exact le_refl t
  · rw [hw]
    exact mem_dropWhile_lt_ge _ _ happ

theorem run_frames_window_inv :
    ∀ (frames : List (ℚ × ℚ × ℚ × ℚ)) (st : Phase7.P7Stats),
      frames.Pairwise (fun x y : ℚ × ℚ × ℚ × ℚ => x.1 ≤ y.1) →
      st.window.Pairwise (fun x y : Phase7.WinEntry => x.1 ≤ y.1) →
      (∀ s ∈ st.window, ∀ f ∈ frames, s.1 ≤ f.1) →
      ∀ tl vAl vBl vDl, frames.getLast? = some (tl, vAl, vBl, vDl) →
        ((Phase7.run_frames st frames).window.Pairwise
            (fun x y : Phase7.WinEntry => x.1 ≤ y.1))
        ∧ (∀ s ∈ (Phase7.run_frames st frames).window, s.1 ≤ tl)
        ∧ (∀ s ∈ (Phase7.run_frames st frames).window,
            tl - Phase7.WINDOW_SECONDS ≤ s.1) := by
  intro frames
  induction frames with
  | nil =>
    intro st _ _ _ tl vAl vBl vDl h
    simp at h
  | cons f fs ih =>
    intro st hpf hsort hbnd tl vAl vBl vDl hlast
    obtain ⟨w, ewA, ewB⟩ := st
    rcases hpf with _ | ⟨hf_all, hpf2⟩
    have hstep := update_stats_window_inv w ewA ewB f.1 f.2.1 f.2.2.1 f.2.2.2 hsort
      (fun s hs => hbnd s hs f (List.mem_cons_self _ _))
    cases fs with
    | nil =>
      have hf : f = (tl, vAl, vBl, vDl) := by simpa using hlast
      subst hf
      exact ⟨hstep.1, hstep.2.1, hstep.2.2⟩
    | cons g gs =>
      have hlast2 : (g :: gs).getLast? = some (tl, vAl, vBl, vDl) := by
        rw [← List.getLast?_cons_cons]
        exact hlast
      refine ih _ hpf2 hstep.1 ?_ tl vAl vBl vDl hlast2
      intro s hs h hh
      exact le_trans (hstep.2.1 s hs) (hf_all h hh)

/-- C6: sliding-window freshness — immediately after any append at time
`now`, every sample remaining in the window is no older than
`now − window_seconds`; in Phase 7 this holds after a single step on a
time-ordered window, and after every frame of any sequence of frames with
non-decreasing timestamps processed from the initial state. -/
theorem sliding_window_freshness :
    (∀ (st : Phase8.DriftState) (ts : ℤ) (a d : ℚ),
        ∀ s ∈ (Phase8.update_drift st ts a d).1.drift_history,
          (ts : ℚ) / 1000 - Phase8.DRIFT_WINDOW_SEC ≤ s.1)
    ∧ (∀ (w : List Phase7.WinEntry) (ewA ewB : Option ℚ) (t vA vB vD : ℚ),
        w.Pairwise (fun x y : Phase7.WinEntry => x.1 ≤ y.1) →
        (∀ s ∈ w, s.1 ≤ t) →
        ∀ s ∈ (Phase7.update_stats_and_rules ⟨w, ewA, ewB⟩ t vA vB vD).1.window,
          t - Phase7.WINDOW_SECONDS ≤ s.1)
    ∧ (∀ frames : List (ℚ × ℚ × ℚ × ℚ),
        frames.Pairwise (fun x y : ℚ × ℚ × ℚ × ℚ => x.1 ≤ y.1) →
        ∀ tl vAl vBl vDl, frames.getLast? = some (tl, vAl, vBl, vDl) →
        ∀ s ∈ (Phase7.run_frames Phase7.initStats frames).window,
          tl - Phase7.WINDOW_SECONDS ≤ s.1) := by
  refine ⟨?_, ?_, ?_⟩
  · intro st ts a d s hs
    simp only [Phase8.update_drift, List.mem_filter] at hs
    exact of_decide_eq_true hs.2
  · intro w ewA ewB t vA vB vD hsort hbound
    exact (update_stats_window_inv w ewA ewB t vA vB vD hsort hbound).2.2
  · intro frames hp tl vAl vBl vDl hlast
    refine (run_frames_window_inv frames Phase7.initStats hp List.Pairwise.nil
      ?_ tl vAl vBl vDl hlast).2.2
    intro s hs
    simp [Phase7.initStats] at hs

theorem sliding_window_freshness_witness :
    (((30 : ℚ), (-1 : ℚ), (-1 : ℚ), (13 : ℚ)) ∈
      (Phase7.run_frames Phase7.initStats [(0, 14, 14, 14), (30, 14, 14, 13)]).window)
    ∧ (30 : ℚ) - Phase7.WINDOW_SECONDS ≤ 30 := by
  have hmem : ((30 : ℚ), (-1 : ℚ), (-1 : ℚ), (13 : ℚ)) ∈
      (Phase7.run_frames Phase7.initStats [(0, 14, 14, 14), (30, 14, 14, 13)]).window := by
    norm_num [Phase7.run_frames, Phase7.update_stats_and_rules, Phase7.initStats,
      Phase7.WINDOW_SECONDS, List.dropWhile]
  exact ⟨hmem,
    sliding_window_freshness.2.2 [(0, 14, 14, 14), (30, 14, 14, 13)]
      (by norm_num [List.pairwise_cons]) 30 14 14 13 rfl
      ((30 : ℚ), (-1 : ℚ), (-1 : ℚ), (13 : ℚ)) hmem⟩
